import Mathlib

/-!
Verification development for the SecurePass password generator
(`src/project3.py`).  The Python module defines a `PasswordStrength`
enum, a `PasswordGenerator` class holding a configuration
(length, four category flags, length bounds), a `generate_password`
method drawing characters from the pool of enabled categories with a
cryptographically secure random source, an `assess_strength` scorer,
a strength-meter renderer and a CLI `run` method.

Modelling choices:
- Randomness: `random.SystemRandom().choice(charset)` is modelled by an
  oracle `r : Nat → Nat` giving one arbitrary natural number per drawn
  position; the drawn character is `charset[r i % charset.length]`.
- Errors: the code raises Python `ValueError` when no category is
  enabled; the spec calls this error kind `ConfigurationError`, and the
  out-of-bounds length rejection (a printed message plus `sys.exit(1)`)
  `ValidationError`.  We use the spec's taxonomy for the constructor
  names and keep the source's message strings.
- Character class tests (`isupper`, `islower`, `isdigit`,
  `c in string.punctuation`) are modelled at ASCII, which is exact on
  the character pool the program itself builds.
- Python `int` is modelled by `Int`; `range(n)` for `n : Int` is
  `List.range n.toNat` (empty when `n ≤ 0`, as in Python).
-/

/-- `string.ascii_uppercase` from the Python standard library. -/
def ascii_uppercase : String := "ABCDEFGHIJKLMNOPQRSTUVWXYZ"

/-- `string.ascii_lowercase` from the Python standard library. -/
def ascii_lowercase : String := "abcdefghijklmnopqrstuvwxyz"

/-- `string.digits` from the Python standard library. -/
def digits : String := "0123456789"

/-- `string.punctuation` from the Python standard library
(32 ASCII symbol characters). -/
def punctuation : String := "!\"#$%&\x27()*+,-./:;<=>?@[\\]^_\x60\x7b|\x7d~"

/-- The `PasswordStrength` enum of `project3.py`. -/
inductive PasswordStrength
  | VERY_WEAK
  | WEAK
  | MEDIUM
  | STRONG
  | VERY_STRONG
deriving DecidableEq, Repr

/-- The integer value of each enum member. -/
def PasswordStrength.value : PasswordStrength → Nat
  | .VERY_WEAK => 0
  | .WEAK => 1
  | .MEDIUM => 2
  | .STRONG => 3
  | .VERY_STRONG => 4

/-- `PasswordStrength(n)` in Python: the member with value `n`, or a
`ValueError` (here `none`) when no member has that value. -/
def PasswordStrength.ofValue : Nat → Option PasswordStrength
  | 0 => some .VERY_WEAK
  | 1 => some .WEAK
  | 2 => some .MEDIUM
  | 3 => some .STRONG
  | 4 => some .VERY_STRONG
  | _ => none

/-- The configuration state of the `PasswordGenerator` class: the
fields assigned in `__init__`. -/
structure PasswordGenerator where
  length : Int
  include_uppercase : Bool
  include_lowercase : Bool
  include_numbers : Bool
  include_symbols : Bool
  min_length : Int
  max_length : Int
deriving DecidableEq, Repr

/-- `PasswordGenerator.__init__`: the defaults. -/
def PasswordGenerator.init : PasswordGenerator :=
  { length := 12
    include_uppercase := true
    include_lowercase := true
    include_numbers := true
    include_symbols := true
    min_length := 6
    max_length := 32 }

/-- The error kinds of the spec.  `ConfigurationError` is the
`ValueError("At least one character type must be selected")` raised by
`generate_password`; `ValidationError` is the out-of-bounds length
rejection in `run`. -/
inductive PGError
  | ConfigurationError (msg : String)
  | ValidationError (msg : String)
deriving DecidableEq, Repr

/-- The character pool built at the top of `generate_password`:
start from the empty string and append each enabled category's set,
in the source's fixed order. -/
def PasswordGenerator.charset (g : PasswordGenerator) : String :=
  (if g.include_uppercase then ascii_uppercase else "")
    ++ (if g.include_lowercase then ascii_lowercase else "")
    ++ (if g.include_numbers then digits else "")
    ++ (if g.include_symbols then punctuation else "")

/-- One call of `random.SystemRandom().choice(cs)`, with the random
draw supplied as the natural number `k`: the element at index
`k % cs.length`. -/
def choice (cs : List Char) (k : Nat) : Char :=
  cs.getD (k % cs.length) 'A'

/-- `PasswordGenerator.generate_password`: build the pool, raise when
it is empty, otherwise draw `self.length` characters. -/
def PasswordGenerator.generate_password (g : PasswordGenerator)
    (r : Nat → Nat) : Except PGError String :=
  let charset := g.charset
  if charset.data = [] then
    .error (.ConfigurationError "At least one character type must be selected")
  else
    .ok ⟨(List.range g.length.toNat).map (fun i => choice charset.data (r i))⟩

/-- `PasswordGenerator.assess_strength`: the additive score, clamped
to 4 and converted to the enum (the conversion is total on 0..4). -/
def assess_strength (password : String) : Option PasswordStrength :=
  let strength : Nat := 0
  let strength := if 12 ≤ password.length then strength + 1 else strength
  let strength := if 16 ≤ password.length then strength + 1 else strength
  let strength := if password.data.any (·.isUpper) then strength + 1 else strength
  let strength := if password.data.any (·.isLower) then strength + 1 else strength
  let strength := if password.data.any (·.isDigit) then strength + 1 else strength
  let strength := if password.data.any (fun c => punctuation.data.contains c)
    then strength + 1 else strength
  PasswordStrength.ofValue (min strength 4)

/-- The `colors` dict of `print_strength_meter`: ANSI color code per
strength value. -/
def colors : Nat → Option String
  | 0 => some "\x1b[91m"
  | 1 => some "\x1b[93m"
  | 2 => some "\x1b[33m"
  | 3 => some "\x1b[92m"
  | 4 => some "\x1b[92m"
  | _ => none

/-- The `strength_text` dict of `print_strength_meter`: label per
strength value. -/
def strength_text : Nat → Option String
  | 0 => some "Very Weak"
  | 1 => some "Weak"
  | 2 => some "Medium"
  | 3 => some "Strong"
  | 4 => some "Very Strong"
  | _ => none

/-- Python string repetition `s * n` for a one-character string,
as used for the meter cells. -/
def repeatChar (c : Char) (n : Nat) : String := ⟨List.replicate n c⟩

/-- The meter line built by `print_strength_meter`:
`meter = "[" + "█"*(value+1) + " "*(4-value) + "]"` and then the
f-string `f"{colors[v]}{meter} {strength_text[v]}\x1b[0m"`.  Dict
lookups are `Option`; a missing key would be a `KeyError`. -/
def print_strength_meter (strength : PasswordStrength) : Option String :=
  let meter := "[" ++ repeatChar '█' (strength.value + 1)
    ++ repeatChar ' ' (4 - strength.value) ++ "]"
  match colors strength.value, strength_text strength.value with
  | some c, some t => some (c ++ meter ++ " " ++ t ++ "\x1b[0m")
  | _, _ => none

/-- The parsed argparse namespace in `run`: the length flag (default 12),
the four `store_false` category toggles (default `True`), and `-h`. -/
structure Args where
  length : Int
  include_uppercase : Bool
  include_lowercase : Bool
  include_numbers : Bool
  include_symbols : Bool
  help : Bool
deriving DecidableEq, Repr

/-- The observable outcome of one `run` invocation. -/
inductive RunOutcome
  /-- `args.help` was set: help text printed, normal return. -/
  | helpDisplayed
  /-- A password was generated and assessed; process ends normally. -/
  | success (password : String) (strength : PasswordStrength)
  /-- Length out of bounds: error message printed, `sys.exit(1)`,
  before any password is generated. -/
  | validationExit
  /-- An exception (e.g. the empty-pool `ValueError`) was caught:
  message and help printed, `sys.exit(1)`. -/
  | errorExit (e : PGError)
deriving DecidableEq, Repr

/-- The process exit status an outcome produces. -/
def RunOutcome.exitCode : RunOutcome → Nat
  | .helpDisplayed => 0
  | .success _ _ => 0
  | .validationExit => 1
  | .errorExit _ => 1

/-- `PasswordGenerator.run` on already-parsed arguments: help
short-circuit, bounds check with `sys.exit(1)`, field updates, then
generation and assessment inside the `try`.  Returns the outcome and
the generator state after the call. -/
def PasswordGenerator.run (g : PasswordGenerator) (args : Args)
    (r : Nat → Nat) : RunOutcome × PasswordGenerator :=
  if args.help then (.helpDisplayed, g)
  else if ¬ (g.min_length ≤ args.length ∧ args.length ≤ g.max_length) then
    (.validationExit, g)
  else
    let g := { g with
      length := args.length
      include_uppercase := args.include_uppercase
      include_lowercase := args.include_lowercase
      include_numbers := args.include_numbers
      include_symbols := args.include_symbols }
    match g.generate_password r with
    | .ok password =>
      match assess_strength password with
      | some strength => (.success password strength, g)
      | none => (.errorExit (.ConfigurationError "invalid strength value"), g)
    | .error e => (.errorExit e, g)

/-- State-passing form of `generate_password`: the method body assigns
no `self` field, so the state component is returned unchanged. -/
def PasswordGenerator.generate_passwordM (g : PasswordGenerator)
    (r : Nat → Nat) : Except PGError String × PasswordGenerator :=
  (g.generate_password r, g)

/-- State-passing form of `assess_strength`: the method reads no
`self` field and assigns none, so the state component is returned
unchanged. -/
def PasswordGenerator.assess_strengthM (g : PasswordGenerator)
    (password : String) : Option PasswordStrength × PasswordGenerator :=
  (assess_strength password, g)


/-- The spec's additive scoring formula, written as a sum of
indicator terms (claim C4's description). -/
def specScore (p : String) : Nat :=
  (if 12 ≤ p.length then 1 else 0) + (if 16 ≤ p.length then 1 else 0)
    + (if p.data.any (·.isUpper) then 1 else 0)
    + (if p.data.any (·.isLower) then 1 else 0)
    + (if p.data.any (·.isDigit) then 1 else 0)
    + (if p.data.any (fun c => punctuation.data.contains c) then 1 else 0)

/-- Membership in the union of the enabled category sets (the spec's
description in claim C2). -/
def inEnabledUnion (g : PasswordGenerator) (c : Char) : Prop :=
  (g.include_uppercase = true ∧ c ∈ ascii_uppercase.data)
    ∨ (g.include_lowercase = true ∧ c ∈ ascii_lowercase.data)
    ∨ (g.include_numbers = true ∧ c ∈ digits.data)
    ∨ (g.include_symbols = true ∧ c ∈ punctuation.data)

lemma charset_data (g : PasswordGenerator) :
    g.charset.data =
      (if g.include_uppercase then ascii_uppercase.data else [])
        ++ (if g.include_lowercase then ascii_lowercase.data else [])
        ++ (if g.include_numbers then digits.data else [])
        ++ (if g.include_symbols then punctuation.data else []) := by
  obtain ⟨len, up, low, num, sym, mn, mx⟩ := g
  cases up <;> cases low <;> cases num <;> cases sym <;> rfl

lemma charset_ne_nil (g : PasswordGenerator)
    (h : g.include_uppercase = true ∨ g.include_lowercase = true
      ∨ g.include_numbers = true ∨ g.include_symbols = true) :
    g.charset.data ≠ [] := by
  intro hnil
  rw [charset_data] at hnil
  simp only [List.append_eq_nil] at hnil
  obtain ⟨⟨⟨h1, h2⟩, h3⟩, h4⟩ := hnil
  rcases h with h | h | h | h
  · rw [if_pos h] at h1; exact absurd h1 (by decide)
  · rw [if_pos h] at h2; exact absurd h2 (by decide)
  · rw [if_pos h] at h3; exact absurd h3 (by decide)
  · rw [if_pos h] at h4; exact absurd h4 (by decide)

lemma choice_mem (cs : List Char) (h : cs ≠ []) (k : Nat) : choice cs k ∈ cs := by
  have hl : 0 < cs.length := List.length_pos.mpr h
  have hk : k % cs.length < cs.length := Nat.mod_lt _ hl
  unfold choice
  rw [List.getD_eq_getElem _ _ hk]
  exact List.getElem_mem hk

lemma assess_strength_eq (p : String) :
    assess_strength p = PasswordStrength.ofValue (min (specScore p) 4) := by
  simp only [assess_strength, specScore]
  split_ifs <;> rfl

lemma ofValue_le4 (m : Nat) (h : m ≤ 4) :
    ∃ s, PasswordStrength.ofValue m = some s ∧ s.value = m := by
  interval_cases m <;> exact ⟨_, rfl, rfl⟩

lemma assess_strength_spec (p : String) :
    ∃ s, assess_strength p = some s ∧ s.value = min (specScore p) 4 := by
  rw [assess_strength_eq]
  exact ofValue_le4 _ (Nat.min_le_right _ 4)

lemma generate_ok (g : PasswordGenerator) (r : Nat → Nat)
    (h : g.charset.data ≠ []) :
    g.generate_password r =
      .ok ⟨(List.range g.length.toNat).map (fun i => choice g.charset.data (r i))⟩ := by
  unfold PasswordGenerator.generate_password
  simp [h]

lemma mem_charset_union (g : PasswordGenerator) (c : Char)
    (hc : c ∈ g.charset.data) : inEnabledUnion g c := by
  rw [charset_data] at hc
  simp only [List.mem_append] at hc
  unfold inEnabledUnion
  rcases hc with ((h | h) | h) | h
  · by_cases hu : g.include_uppercase = true
    · exact Or.inl ⟨hu, by rwa [if_pos hu] at h⟩
    · rw [if_neg hu] at h; cases h
  · by_cases hl : g.include_lowercase = true
    · exact Or.inr (Or.inl ⟨hl, by rwa [if_pos hl] at h⟩)
    · rw [if_neg hl] at h; cases h
  · by_cases hn : g.include_numbers = true
    · exact Or.inr (Or.inr (Or.inl ⟨hn, by rwa [if_pos hn] at h⟩))
    · rw [if_neg hn] at h; cases h
  · by_cases hs : g.include_symbols = true
    · exact Or.inr (Or.inr (Or.inr ⟨hs, by rwa [if_pos hs] at h⟩))
    · rw [if_neg hs] at h; cases h

/-- C1: for every configuration with length in [6, 32] and at least
one category flag enabled, `generate_password` returns a password
whose length equals the configured length exactly. -/
theorem generate_password_length_eq (g : PasswordGenerator) (r : Nat → Nat)
    (h6 : 6 ≤ g.length) (h32 : g.length ≤ 32)
    (hflag : g.include_uppercase = true ∨ g.include_lowercase = true
      ∨ g.include_numbers = true ∨ g.include_symbols = true) :
    ∃ p : String, g.generate_password r = .ok p ∧ (p.length : Int) = g.length := by
  refine ⟨_, generate_ok g r (charset_ne_nil g hflag), ?_⟩
  have hl : (⟨(List.range g.length.toNat).map
      (fun i => choice g.charset.data (r i))⟩ : String).length = g.length.toNat := by
    simp [String.length]
  rw [hl]
  omega

theorem generate_password_length_eq_witness :
    ∃ p : String, PasswordGenerator.init.generate_password (fun _ => 0) = .ok p
      ∧ (p.length : Int) = PasswordGenerator.init.length :=
  generate_password_length_eq PasswordGenerator.init (fun _ => 0)
    (by decide) (by decide) (Or.inl rfl)

/-- C2: every character of a generated password belongs to the union
of the enabled categories' character sets. -/
theorem generate_password_chars_in_union (g : PasswordGenerator) (r : Nat → Nat)
    (hflag : g.include_uppercase = true ∨ g.include_lowercase = true
      ∨ g.include_numbers = true ∨ g.include_symbols = true)
    (p : String) (hgen : g.generate_password r = .ok p) :
    ∀ c ∈ p.data, inEnabledUnion g c := by
  have hne := charset_ne_nil g hflag
  rw [generate_ok g r hne] at hgen
  injection hgen with hgen
  subst hgen
  intro c hc
  replace hc : c ∈ (List.range g.length.toNat).map
      (fun i => choice g.charset.data (r i)) := hc
  obtain ⟨i, _, rfl⟩ := List.mem_map.mp hc
  exact mem_charset_union g _ (choice_mem _ hne _)

theorem generate_password_chars_in_union_witness :
    inEnabledUnion PasswordGenerator.init 'A' :=
  generate_password_chars_in_union PasswordGenerator.init (fun _ => 0)
    (Or.inl rfl) "AAAAAAAAAAAA" rfl 'A' (by decide)

/-- C3: with all four category flags disabled, `generate_password`
raises the ConfigurationError (Python `ValueError`) and never
returns a password. -/
theorem generate_password_no_category_errors (g : PasswordGenerator) (r : Nat → Nat)
    (hu : g.include_uppercase = false) (hl : g.include_lowercase = false)
    (hn : g.include_numbers = false) (hs : g.include_symbols = false) :
    g.generate_password r =
      .error (.ConfigurationError "At least one character type must be selected") := by
  have hnil : g.charset.data = [] := by
    rw [charset_data]
    simp [hu, hl, hn, hs]
  unfold PasswordGenerator.generate_password
  simp [hnil]

theorem generate_password_no_category_errors_witness :
    ({ PasswordGenerator.init with
        include_uppercase := false
        include_lowercase := false
        include_numbers := false
        include_symbols := false } : PasswordGenerator).generate_password (fun _ => 0) =
      .error (.ConfigurationError "At least one character type must be selected") :=
  generate_password_no_category_errors _ (fun _ => 0) rfl rfl rfl rfl

/-- C4: `assess_strength` equals the spec's additive formula — the
sum of the six indicator terms, clamped to 4, read as a strength
level value. -/
theorem assess_strength_matches_formula (p : String) :
    ∃ s, assess_strength p = some s ∧ s.value = min (specScore p) 4 :=
  assess_strength_spec p

/-- C5: for fixed category coverage, strength is monotone
non-decreasing in length. -/
theorem assess_strength_monotone_length (p q : String)
    (hU : p.data.any (·.isUpper) = q.data.any (·.isUpper))
    (hL : p.data.any (·.isLower) = q.data.any (·.isLower))
    (hD : p.data.any (·.isDigit) = q.data.any (·.isDigit))
    (hS : p.data.any (fun c => punctuation.data.contains c)
      = q.data.any (fun c => punctuation.data.contains c))
    (hlen : q.length ≤ p.length) :
    ∃ sp sq, assess_strength p = some sp ∧ assess_strength q = some sq
      ∧ sq.value ≤ sp.value := by
  obtain ⟨sp, hp, hvp⟩ := assess_strength_spec p
  obtain ⟨sq, hq, hvq⟩ := assess_strength_spec q
  refine ⟨sp, sq, hp, hq, ?_⟩
  rw [hvp, hvq]
  have hmono : specScore q ≤ specScore p := by
    unfold specScore
    rw [hU, hL, hD, hS]
    split_ifs <;> omega
  omega

theorem assess_strength_monotone_length_witness :
    ∃ sp sq, assess_strength "abcdefgh" = some sp
      ∧ assess_strength "abc" = some sq ∧ sq.value ≤ sp.value :=
  assess_strength_monotone_length "abcdefgh" "abc" rfl rfl rfl rfl (by decide)

/-- C6: the spec's two worked examples: "Ab3!Ab3!Ab3!" assesses as
VERY_STRONG (level 4) and "abcdefgh" as WEAK (level 1). -/
theorem assess_strength_examples :
    assess_strength "Ab3!Ab3!Ab3!" = some PasswordStrength.VERY_STRONG
      ∧ assess_strength "abcdefgh" = some PasswordStrength.WEAK :=
  ⟨rfl, rfl⟩

/-- C9: `assess_strength` is total: on every string it returns a
valid level with value at most 4, and on the empty string it returns
VERY_WEAK. -/
theorem assess_strength_total :
    (∀ p : String, ∃ s, assess_strength p = some s ∧ s.value ≤ 4)
      ∧ assess_strength "" = some PasswordStrength.VERY_WEAK := by
  constructor
  · intro p
    obtain ⟨s, hs, hv⟩ := assess_strength_spec p
    exact ⟨s, hs, by omega⟩
  · rfl

/-- C10: `generate_password` and `assess_strength` leave every
configuration field unchanged (the method bodies assign no field). -/
theorem generator_state_unchanged (g : PasswordGenerator) (r : Nat → Nat)
    (p : String) :
    ((g.generate_passwordM r).2.length = g.length
      ∧ (g.generate_passwordM r).2.include_uppercase = g.include_uppercase
      ∧ (g.generate_passwordM r).2.include_lowercase = g.include_lowercase
      ∧ (g.generate_passwordM r).2.include_numbers = g.include_numbers
      ∧ (g.generate_passwordM r).2.include_symbols = g.include_symbols
      ∧ (g.generate_passwordM r).2.min_length = g.min_length
      ∧ (g.generate_passwordM r).2.max_length = g.max_length)
    ∧ ((g.assess_strengthM p).2.length = g.length
      ∧ (g.assess_strengthM p).2.include_uppercase = g.include_uppercase
      ∧ (g.assess_strengthM p).2.include_lowercase = g.include_lowercase
      ∧ (g.assess_strengthM p).2.include_numbers = g.include_numbers
      ∧ (g.assess_strengthM p).2.include_symbols = g.include_symbols
      ∧ (g.assess_strengthM p).2.min_length = g.min_length
      ∧ (g.assess_strengthM p).2.max_length = g.max_length) :=
  ⟨⟨rfl, rfl, rfl, rfl, rfl, rfl, rfl⟩, ⟨rfl, rfl, rfl, rfl, rfl, rfl, rfl⟩⟩

/-- C8: for every strength level, the rendered meter has exactly 5
cells — `value+1` filled followed by `4-value` empty — together with
the level's text label and its terminal color code. -/
theorem strength_meter_five_cells (s : PasswordStrength) :
    ∃ c t, colors s.value = some c ∧ strength_text s.value = some t
      ∧ print_strength_meter s =
          some (c ++ ("[" ++ repeatChar '█' (s.value + 1)
            ++ repeatChar ' ' (4 - s.value) ++ "]") ++ " " ++ t ++ "\x1b[0m")
      ∧ (repeatChar '█' (s.value + 1) ++ repeatChar ' ' (4 - s.value)).length = 5 := by
  cases s <;> exact ⟨_, _, rfl, rfl, rfl, rfl⟩

/-- C7: `run` rejects a requested length outside [6, 32] with the
ValidationError exit (status 1, no password generated) and accepts a
length inside the bounds; with at least one category enabled an
in-bounds length produces a password. -/
theorem run_length_validation (a : Args) (r : Nat → Nat) (hh : a.help = false) :
    ((PasswordGenerator.init.run a r).1 = .validationExit
        ↔ ¬ (6 ≤ a.length ∧ a.length ≤ 32))
      ∧ (¬ (6 ≤ a.length ∧ a.length ≤ 32) →
          ((PasswordGenerator.init.run a r).1).exitCode = 1)
      ∧ ((6 ≤ a.length ∧ a.length ≤ 32) →
          (a.include_uppercase = true ∨ a.include_lowercase = true
            ∨ a.include_numbers = true ∨ a.include_symbols = true) →
          ∃ p s, (PasswordGenerator.init.run a r).1 = .success p s
            ∧ ((PasswordGenerator.init.run a r).1).exitCode = 0) := by
  unfold PasswordGenerator.run
  simp only [hh, Bool.false_eq_true, if_false]
  by_cases hb : (6 : Int) ≤ a.length ∧ a.length ≤ 32
  · have hb' : PasswordGenerator.init.min_length ≤ a.length
        ∧ a.length ≤ PasswordGenerator.init.max_length := hb
    rw [if_neg (not_not_intro hb')]
    set g' : PasswordGenerator :=
      { length := a.length
        include_uppercase := a.include_uppercase
        include_lowercase := a.include_lowercase
        include_numbers := a.include_numbers
        include_symbols := a.include_symbols
        min_length := PasswordGenerator.init.min_length
        max_length := PasswordGenerator.init.max_length } with hg
    refine ⟨?_, fun hnb => absurd hb hnb, ?_⟩
    · rcases hgen : g'.generate_password r with e | p
      · simp [hgen, hb]
      · obtain ⟨s, hs, _⟩ := assess_strength_spec p
        simp [hgen, hs, hb]
    · intro _ hflag
      have hne : g'.charset.data ≠ [] := charset_ne_nil g' hflag
      have hgen := generate_ok g' r hne
      obtain ⟨s, hs, _⟩ := assess_strength_spec
        (⟨(List.range g'.length.toNat).map (fun i => choice g'.charset.data (r i))⟩ : String)
      simp only [hgen, hs]
      exact ⟨_, s, rfl, rfl⟩
  · have hb' : ¬ (PasswordGenerator.init.min_length ≤ a.length
        ∧ a.length ≤ PasswordGenerator.init.max_length) := hb
    rw [if_pos hb']
    exact ⟨by simp [hb], fun _ => rfl, fun h _ => absurd h hb⟩

theorem run_length_validation_witness :
    (PasswordGenerator.init.run ⟨5, true, true, true, true, false⟩ (fun _ => 0)).1
      = RunOutcome.validationExit :=
  (run_length_validation ⟨5, true, true, true, true, false⟩ (fun _ => 0) rfl).1.mpr
    (by decide)
